import Mathlib

/-!
# Structured telemetry events (`eden/fs/telemetry/LogEvent.h`)

A shallow embedding of the `DynamicEvent` field container and of the nine
event record structs that project themselves into it with `populate`.

* `std::unordered_map<std::string, T>` is a `Finmap` keyed by `String`: a finite
  map with unique keys whose equality does not see insertion order.
* `int64_t` values are only stored and read back, never computed with, so they
  are `Int` (every `int64_t` is one; no statement relies on a value outside the
  64-bit range); a `bool` converted to `int64_t` is `1` or `0`.
* `double` values are only stored and read back as well; a `Double` is the
  IEEE-754 binary64 bit pattern of the value.
-/

namespace facebook.eden

/-- The bit pattern of a C++ `double` (IEEE-754 binary64). -/
structure Double where
  bits : Nat
  deriving DecidableEq, Repr

/-- The `double` literal `0.0`, the default of every `duration` member. -/
def Double.zero : Double := ⟨0⟩

/-- The `double` literal `1.5` (sign 0, exponent 0x3FF, fraction 0x8000000000000). -/
def Double.onePointFive : Double := ⟨0x3FF8000000000000⟩

/-- The alias `DynamicEvent::IntMap`. -/
abbrev IntMap := Finmap (fun _ : String => Int)

/-- The alias `DynamicEvent::StringMap`. -/
abbrev StringMap := Finmap (fun _ : String => String)

/-- The alias `DynamicEvent::DoubleMap`. -/
abbrev DoubleMap := Finmap (fun _ : String => Double)

/-- The class `DynamicEvent`: its three private members `ints_`, `strings_`, `doubles_`. -/
structure DynamicEvent where
  ints_ : IntMap
  strings_ : StringMap
  doubles_ : DoubleMap
  deriving DecidableEq

namespace DynamicEvent

/-- The defaulted constructor `DynamicEvent()`: three empty maps. -/
def empty : DynamicEvent := ⟨∅, ∅, ∅⟩

/-- Modelled from the spec: the body of `DynamicEvent::addInt` is not in `LogEvent.h`
(only its declaration is). Spec 4.1: "inserts/overwrites `name` in the integer mapping
... overwriting a prior value for the same name is silent (last write wins)". -/
def addInt (event : DynamicEvent) (name : String) (value : Int) : DynamicEvent :=
  { event with ints_ := event.ints_.insert name value }

/-- Modelled from the spec: the body of `DynamicEvent::addString` is not in `LogEvent.h`.
Spec 4.1: "same, on the string mapping". -/
def addString (event : DynamicEvent) (name : String) (value : String) : DynamicEvent :=
  { event with strings_ := event.strings_.insert name value }

/-- Modelled from the spec: the body of `DynamicEvent::addDouble` is not in `LogEvent.h`.
Spec 4.1: "same, on the double mapping". -/
def addDouble (event : DynamicEvent) (name : String) (value : Double) : DynamicEvent :=
  { event with doubles_ := event.doubles_.insert name value }

/-- The implicit conversion `bool -> int64_t` at the call `addInt(std::move(name), value)`. -/
def boolToInt64 (value : Bool) : Int :=
  if value then 1 else 0

/-- The inline member `addBool`: `addInt(std::move(name), value)`. -/
def addBool (event : DynamicEvent) (name : String) (value : Bool) : DynamicEvent :=
  event.addInt name (boolToInt64 value)

/-- The accessor `getIntMap`. -/
def getIntMap (event : DynamicEvent) : IntMap := event.ints_

/-- The accessor `getStringMap`. -/
def getStringMap (event : DynamicEvent) : StringMap := event.strings_

/-- The accessor `getDoubleMap`. -/
def getDoubleMap (event : DynamicEvent) : DoubleMap := event.doubles_

end DynamicEvent

/-- The struct `ParentMismatch`. -/
structure ParentMismatch where
  mercurial_parent : String
  eden_parent : String
  deriving DecidableEq, Repr

/-- The constant `ParentMismatch::type`. -/
def ParentMismatch.type : String := "parent_mismatch"

/-- The member `ParentMismatch::populate`. -/
def ParentMismatch.populate (self : ParentMismatch) (event : DynamicEvent) : DynamicEvent :=
  let event := event.addString "mercurial_parent" self.mercurial_parent
  let event := event.addString "eden_parent" self.eden_parent
  event

/-- The struct `DaemonStart`, with its member defaults. -/
structure DaemonStart where
  duration : Double := Double.zero
  is_takeover : Bool := false
  success : Bool := false
  deriving DecidableEq, Repr

/-- The constant `DaemonStart::type`. -/
def DaemonStart.type : String := "daemon_start"

/-- The member `DaemonStart::populate`. -/
def DaemonStart.populate (self : DaemonStart) (event : DynamicEvent) : DynamicEvent :=
  let event := event.addDouble "duration" self.duration
  let event := event.addBool "is_takeover" self.is_takeover
  let event := event.addBool "success" self.success
  event

/-- The struct `DaemonStop`, with its member defaults. -/
structure DaemonStop where
  duration : Double := Double.zero
  is_takeover : Bool := false
  success : Bool := false
  deriving DecidableEq, Repr

/-- The constant `DaemonStop::type`. -/
def DaemonStop.type : String := "daemon_stop"

/-- The member `DaemonStop::populate`. -/
def DaemonStop.populate (self : DaemonStop) (event : DynamicEvent) : DynamicEvent :=
  let event := event.addDouble "duration" self.duration
  let event := event.addBool "is_takeover" self.is_takeover
  let event := event.addBool "success" self.success
  event

/-- The struct `FinishedCheckout`, with its member defaults. -/
structure FinishedCheckout where
  mode : String
  duration : Double := Double.zero
  success : Bool := false
  fetchedTrees : Int := 0
  fetchedBlobs : Int := 0
  deriving DecidableEq, Repr

/-- The constant `FinishedCheckout::type`. -/
def FinishedCheckout.type : String := "checkout"

/-- The member `FinishedCheckout::populate`. -/
def FinishedCheckout.populate (self : FinishedCheckout) (event : DynamicEvent) : DynamicEvent :=
  let event := event.addString "mode" self.mode
  let event := event.addDouble "duration" self.duration
  let event := event.addBool "success" self.success
  let event := event.addInt "fetched_trees" self.fetchedTrees
  let event := event.addInt "fetched_blobs" self.fetchedBlobs
  event

/-- The struct `FinishedMount`, with its member defaults. -/
structure FinishedMount where
  repo_type : String
  repo_source : String
  is_takeover : Bool := false
  duration : Double := Double.zero
  success : Bool := false
  clean : Bool := false
  deriving DecidableEq, Repr

/-- The constant `FinishedMount::type`. -/
def FinishedMount.type : String := "mount"

/-- The member `FinishedMount::populate`. -/
def FinishedMount.populate (self : FinishedMount) (event : DynamicEvent) : DynamicEvent :=
  let event := event.addString "repo_type" self.repo_type
  let event := event.addString "repo_source" self.repo_source
  let event := event.addBool "is_takeover" self.is_takeover
  let event := event.addDouble "duration" self.duration
  let event := event.addBool "success" self.success
  let event := event.addBool "clean" self.clean
  event

/-- The struct `FuseError`, with its member defaults. -/
structure FuseError where
  fuse_op : Int := 0
  error_code : Int := 0
  deriving DecidableEq, Repr

/-- The constant `FuseError::type`. -/
def FuseError.type : String := "fuse_error"

/-- The member `FuseError::populate`. -/
def FuseError.populate (self : FuseError) (event : DynamicEvent) : DynamicEvent :=
  let event := event.addInt "fuse_op" self.fuse_op
  let event := event.addInt "error_code" self.error_code
  event

/-- The struct `RocksDbAutomaticGc`, with its member defaults. -/
structure RocksDbAutomaticGc where
  duration : Double := Double.zero
  success : Bool := false
  size_before : Int := 0
  size_after : Int := 0
  deriving DecidableEq, Repr

/-- The constant `RocksDbAutomaticGc::type`. -/
def RocksDbAutomaticGc.type : String := "rocksdb_autogc"

/-- The member `RocksDbAutomaticGc::populate`. -/
def RocksDbAutomaticGc.populate (self : RocksDbAutomaticGc) (event : DynamicEvent) :
    DynamicEvent :=
  let event := event.addDouble "duration" self.duration
  let event := event.addBool "success" self.success
  let event := event.addInt "size_before" self.size_before
  let event := event.addInt "size_after" self.size_after
  event

/-- The struct `ThriftError`. -/
structure ThriftError where
  thrift_method : String
  deriving DecidableEq, Repr

/-- The constant `ThriftError::type`. -/
def ThriftError.type : String := "thrift_error"

/-- The member `ThriftError::populate`. -/
def ThriftError.populate (self : ThriftError) (event : DynamicEvent) : DynamicEvent :=
  let event := event.addString "thrift_method" self.thrift_method
  event

/-- The struct `ThriftAuthFailure`. -/
structure ThriftAuthFailure where
  thrift_method : String
  reason : String
  deriving DecidableEq, Repr

/-- The constant `ThriftAuthFailure::type`. -/
def ThriftAuthFailure.type : String := "thrift_auth_failure"

/-- The member `ThriftAuthFailure::populate`. -/
def ThriftAuthFailure.populate (self : ThriftAuthFailure) (event : DynamicEvent) :
    DynamicEvent :=
  let event := event.addString "thrift_method" self.thrift_method
  let event := event.addString "reason" self.reason
  event

/-- The nine event record structs as one sum type, so that a statement can range over
"every variant and every record of it". The C++ structs are unrelated types; the sum adds
nothing but the tag of which struct a record is. -/
inductive Event where
  | parentMismatch (r : ParentMismatch)
  | daemonStart (r : DaemonStart)
  | daemonStop (r : DaemonStop)
  | finishedCheckout (r : FinishedCheckout)
  | finishedMount (r : FinishedMount)
  | fuseError (r : FuseError)
  | rocksDbAutomaticGc (r : RocksDbAutomaticGc)
  | thriftError (r : ThriftError)
  | thriftAuthFailure (r : ThriftAuthFailure)
  deriving DecidableEq, Repr

/-- The static member `type` of the struct a record belongs to. -/
def Event.type : Event → String
  | .parentMismatch _ => ParentMismatch.type
  | .daemonStart _ => DaemonStart.type
  | .daemonStop _ => DaemonStop.type
  | .finishedCheckout _ => FinishedCheckout.type
  | .finishedMount _ => FinishedMount.type
  | .fuseError _ => FuseError.type
  | .rocksDbAutomaticGc _ => RocksDbAutomaticGc.type
  | .thriftError _ => ThriftError.type
  | .thriftAuthFailure _ => ThriftAuthFailure.type

/-- The member `populate` of the struct a record belongs to. -/
def Event.populate : Event → DynamicEvent → DynamicEvent
  | .parentMismatch r => r.populate
  | .daemonStart r => r.populate
  | .daemonStop r => r.populate
  | .finishedCheckout r => r.populate
  | .finishedMount r => r.populate
  | .fuseError r => r.populate
  | .rocksDbAutomaticGc r => r.populate
  | .thriftError r => r.populate
  | .thriftAuthFailure r => r.populate

/-- The `type` constants of the nine structs, in the order of declaration in `LogEvent.h`. -/
def allTypes : List String :=
  [ParentMismatch.type, DaemonStart.type, DaemonStop.type, FinishedCheckout.type,
   FinishedMount.type, FuseError.type, RocksDbAutomaticGc.type, ThriftError.type,
   ThriftAuthFailure.type]

/-- The names present across the three mappings of a container. -/
def DynamicEvent.names (event : DynamicEvent) : Finset String :=
  event.getStringMap.keys ∪ event.getDoubleMap.keys ∪ event.getIntMap.keys

/-- Modelled from the spec: the table "Defined variants and their fields" of section 3,
one row per variant, the field names as the spec prints them. This is the spec's table,
not the source; it is what `populate` is compared with. -/
def Event.specFieldNames : Event → Finset String
  | .parentMismatch _ => {"mercurial_parent", "eden_parent"}
  | .daemonStart _ => {"duration", "is_takeover", "success"}
  | .daemonStop _ => {"duration", "is_takeover", "success"}
  | .finishedCheckout _ => {"mode", "duration", "success", "fetchedTrees", "fetchedBlobs"}
  | .finishedMount _ =>
      {"repo_type", "repo_source", "is_takeover", "duration", "success", "clean"}
  | .fuseError _ => {"fuse_op", "error_code"}
  | .rocksDbAutomaticGc _ => {"duration", "success", "size_before", "size_after"}
  | .thriftError _ => {"thrift_method"}
  | .thriftAuthFailure _ => {"thrift_method", "reason"}

/-- One call of `addString`, `addDouble` or `addInt`, with its arguments: the element of
"a sequence of add calls". -/
inductive AddCall where
  | addString (name : String) (value : String)
  | addDouble (name : String) (value : Double)
  | addInt (name : String) (value : Int)
  deriving DecidableEq, Repr

/-- The name argument of a call. -/
def AddCall.name : AddCall → String
  | .addString name _ => name
  | .addDouble name _ => name
  | .addInt name _ => name

/-- Perform one call on a container. -/
def AddCall.apply (event : DynamicEvent) : AddCall → DynamicEvent
  | .addString name value => event.addString name value
  | .addDouble name value => event.addDouble name value
  | .addInt name value => event.addInt name value

/-- Perform a sequence of calls on a container, first call first. -/
def applyCalls (calls : List AddCall) (event : DynamicEvent) : DynamicEvent :=
  calls.foldl AddCall.apply event

/-- The names passed to `addString` in a sequence of calls, in call order. -/
def stringNames (calls : List AddCall) : List String :=
  calls.filterMap fun
    | .addString name _ => some name
    | _ => none

/-- The names passed to `addDouble` in a sequence of calls, in call order. -/
def doubleNames (calls : List AddCall) : List String :=
  calls.filterMap fun
    | .addDouble name _ => some name
    | _ => none

/-- The names passed to `addInt` in a sequence of calls, in call order. -/
def intNames (calls : List AddCall) : List String :=
  calls.filterMap fun
    | .addInt name _ => some name
    | _ => none

/-- The add calls the body of `populate` makes, in source order. An `addBool(name, value)`
call is listed as the `addInt(name, value)` call it makes. -/
def Event.calls : Event → List AddCall
  | .parentMismatch r =>
      [.addString "mercurial_parent" r.mercurial_parent,
       .addString "eden_parent" r.eden_parent]
  | .daemonStart r =>
      [.addDouble "duration" r.duration,
       .addInt "is_takeover" (DynamicEvent.boolToInt64 r.is_takeover),
       .addInt "success" (DynamicEvent.boolToInt64 r.success)]
  | .daemonStop r =>
      [.addDouble "duration" r.duration,
       .addInt "is_takeover" (DynamicEvent.boolToInt64 r.is_takeover),
       .addInt "success" (DynamicEvent.boolToInt64 r.success)]
  | .finishedCheckout r =>
      [.addString "mode" r.mode,
       .addDouble "duration" r.duration,
       .addInt "success" (DynamicEvent.boolToInt64 r.success),
       .addInt "fetched_trees" r.fetchedTrees,
       .addInt "fetched_blobs" r.fetchedBlobs]
  | .finishedMount r =>
      [.addString "repo_type" r.repo_type,
       .addString "repo_source" r.repo_source,
       .addInt "is_takeover" (DynamicEvent.boolToInt64 r.is_takeover),
       .addDouble "duration" r.duration,
       .addInt "success" (DynamicEvent.boolToInt64 r.success),
       .addInt "clean" (DynamicEvent.boolToInt64 r.clean)]
  | .fuseError r =>
      [.addInt "fuse_op" r.fuse_op,
       .addInt "error_code" r.error_code]
  | .rocksDbAutomaticGc r =>
      [.addDouble "duration" r.duration,
       .addInt "success" (DynamicEvent.boolToInt64 r.success),
       .addInt "size_before" r.size_before,
       .addInt "size_after" r.size_after]
  | .thriftError r =>
      [.addString "thrift_method" r.thrift_method]
  | .thriftAuthFailure r =>
      [.addString "thrift_method" r.thrift_method,
       .addString "reason" r.reason]

/-- The numbers of entries of the string, the double and the integer mapping, in this order. -/
def DynamicEvent.entryCounts (event : DynamicEvent) : Nat × Nat × Nat :=
  (event.getStringMap.keys.card, event.getDoubleMap.keys.card, event.getIntMap.keys.card)

/-- Container `after` holds every name container `before` holds, mapping by mapping, and so
has at least as many entries in each mapping. -/
def DynamicEvent.GrowsTo (before after : DynamicEvent) : Prop :=
  (before.getIntMap.keys ⊆ after.getIntMap.keys ∧
    before.getStringMap.keys ⊆ after.getStringMap.keys ∧
    before.getDoubleMap.keys ⊆ after.getDoubleMap.keys) ∧
  (before.getIntMap.keys.card ≤ after.getIntMap.keys.card ∧
    before.getStringMap.keys.card ≤ after.getStringMap.keys.card ∧
    before.getDoubleMap.keys.card ≤ after.getDoubleMap.keys.card)

/-! ## Auxiliary facts about the container -/

section Aux

variable {V : Type}

/-- Reading a map after an insert: the inserted value at the inserted key, the old map elsewhere. -/
theorem lookup_insert_ite (m : Finmap (fun _ : String => V)) (k k2 : String) (v : V) :
    Finmap.lookup k (Finmap.insert k2 v m) = if k = k2 then some v else Finmap.lookup k m := by
  by_cases h : k = k2
  · subst h; simp
  · simp [h, Finmap.lookup_insert_of_ne]

/-- The keys after an insert are the old keys and the inserted key. -/
theorem keys_insert_eq (m : Finmap (fun _ : String => V)) (k : String) (v : V) :
    (Finmap.insert k v m).keys = insert k m.keys := by
  ext x
  simp [Finmap.mem_keys]

/-- A one-entry map is an insert into the empty map. -/
theorem singleton_eq_insert (k : String) (v : V) :
    (Finmap.singleton k v : Finmap (fun _ : String => V)) = Finmap.insert k v ∅ := by
  apply Finmap.ext_lookup; intro x
  rw [lookup_insert_ite]
  by_cases h : x = k
  · subst h; simp
  · simp [h, Finmap.lookup_eq_none]

/-- A key that is present occurs exactly once among the entries of a map. -/
theorem count_key_eq_one (m : Finmap (fun _ : String => V)) (k : String)
    (h : k ∈ m) : Multiset.count k m.entries.keys = 1 :=
  Multiset.count_eq_one_of_mem m.nodupKeys.nodup_keys (Finmap.mem_def.1 h)

end Aux

namespace DynamicEvent

@[simp] theorem getIntMap_addInt (e : DynamicEvent) (n : String) (v : Int) :
    (e.addInt n v).getIntMap = e.getIntMap.insert n v := rfl

@[simp] theorem getStringMap_addInt (e : DynamicEvent) (n : String) (v : Int) :
    (e.addInt n v).getStringMap = e.getStringMap := rfl

@[simp] theorem getDoubleMap_addInt (e : DynamicEvent) (n : String) (v : Int) :
    (e.addInt n v).getDoubleMap = e.getDoubleMap := rfl

@[simp] theorem getIntMap_addString (e : DynamicEvent) (n : String) (v : String) :
    (e.addString n v).getIntMap = e.getIntMap := rfl

@[simp] theorem getStringMap_addString (e : DynamicEvent) (n : String) (v : String) :
    (e.addString n v).getStringMap = e.getStringMap.insert n v := rfl

@[simp] theorem getDoubleMap_addString (e : DynamicEvent) (n : String) (v : String) :
    (e.addString n v).getDoubleMap = e.getDoubleMap := rfl

@[simp] theorem getIntMap_addDouble (e : DynamicEvent) (n : String) (v : Double) :
    (e.addDouble n v).getIntMap = e.getIntMap := rfl

@[simp] theorem getStringMap_addDouble (e : DynamicEvent) (n : String) (v : Double) :
    (e.addDouble n v).getStringMap = e.getStringMap := rfl

@[simp] theorem getDoubleMap_addDouble (e : DynamicEvent) (n : String) (v : Double) :
    (e.addDouble n v).getDoubleMap = e.getDoubleMap.insert n v := rfl

@[simp] theorem getIntMap_addBool (e : DynamicEvent) (n : String) (b : Bool) :
    (e.addBool n b).getIntMap = e.getIntMap.insert n (boolToInt64 b) := rfl

@[simp] theorem getStringMap_addBool (e : DynamicEvent) (n : String) (b : Bool) :
    (e.addBool n b).getStringMap = e.getStringMap := rfl

@[simp] theorem getDoubleMap_addBool (e : DynamicEvent) (n : String) (b : Bool) :
    (e.addBool n b).getDoubleMap = e.getDoubleMap := rfl

@[simp] theorem getIntMap_empty : empty.getIntMap = ∅ := rfl

@[simp] theorem getStringMap_empty : empty.getStringMap = ∅ := rfl

@[simp] theorem getDoubleMap_empty : empty.getDoubleMap = ∅ := rfl

/-- Two containers are equal when the three accessors agree on them. -/
theorem ext_maps {a b : DynamicEvent} (hi : a.getIntMap = b.getIntMap)
    (hs : a.getStringMap = b.getStringMap) (hd : a.getDoubleMap = b.getDoubleMap) : a = b := by
  cases a; cases b
  simp only [getIntMap, getStringMap, getDoubleMap] at hi hs hd
  subst hi hs hd
  rfl

end DynamicEvent

/-! ## Sequences of add calls -/

/-- A sequence of calls performs its first call, then the rest. -/
theorem applyCalls_cons (c : AddCall) (cs : List AddCall) (e : DynamicEvent) :
    applyCalls (c :: cs) e = applyCalls cs (c.apply e) := rfl

/-- A call whose name is not among the names of a sequence is not in the sequence. -/
theorem not_mem_of_name_not_mem {c : AddCall} {cs : List AddCall}
    (h : c.name ∉ cs.map AddCall.name) : c ∉ cs :=
  fun hc => h (List.mem_map_of_mem _ hc)

/-- The integer mapping after a sequence of calls with distinct names, from any starting
container: the pairs passed to `addInt`, and the starting entries no `addInt` call names. -/
theorem lookup_applyCalls_int (calls : List AddCall) :
    ∀ (e : DynamicEvent), (calls.map AddCall.name).Nodup → ∀ (k : String) (v : Int),
      ((applyCalls calls e).getIntMap.lookup k = some v ↔
        AddCall.addInt k v ∈ calls ∨
          ((∀ w, AddCall.addInt k w ∉ calls) ∧ e.getIntMap.lookup k = some v)) := by
  induction calls with
  | nil => intro e _ k v; simp [applyCalls]
  | cons c cs ih =>
    intro e hnd k v
    rw [List.map_cons, List.nodup_cons] at hnd
    obtain ⟨hc, hcs⟩ := hnd
    rw [applyCalls_cons, ih (c.apply e) hcs k v]
    cases c with
    | addString n x => simp [AddCall.apply]
    | addDouble n x => simp [AddCall.apply]
    | addInt n x =>
      simp only [AddCall.apply, DynamicEvent.getIntMap_addInt, lookup_insert_ite,
        List.mem_cons, not_or, AddCall.addInt.injEq]
      by_cases hk : k = n
      · subst hk
        have hno : ∀ w, AddCall.addInt k w ∉ cs := fun w => not_mem_of_name_not_mem hc
        simp [hno, eq_comm]
      · simp [hk]

/-- The string mapping after a sequence of calls with distinct names, from any starting
container: the pairs passed to `addString`, and the starting entries no `addString` call names. -/
theorem lookup_applyCalls_string (calls : List AddCall) :
    ∀ (e : DynamicEvent), (calls.map AddCall.name).Nodup → ∀ (k : String) (v : String),
      ((applyCalls calls e).getStringMap.lookup k = some v ↔
        AddCall.addString k v ∈ calls ∨
          ((∀ w, AddCall.addString k w ∉ calls) ∧ e.getStringMap.lookup k = some v)) := by
  induction calls with
  | nil => intro e _ k v; simp [applyCalls]
  | cons c cs ih =>
    intro e hnd k v
    rw [List.map_cons, List.nodup_cons] at hnd
    obtain ⟨hc, hcs⟩ := hnd
    rw [applyCalls_cons, ih (c.apply e) hcs k v]
    cases c with
    | addInt n x => simp [AddCall.apply]
    | addDouble n x => simp [AddCall.apply]
    | addString n x =>
      simp only [AddCall.apply, DynamicEvent.getStringMap_addString, lookup_insert_ite,
        List.mem_cons, not_or, AddCall.addString.injEq]
      by_cases hk : k = n
      · subst hk
        have hno : ∀ w, AddCall.addString k w ∉ cs := fun w => not_mem_of_name_not_mem hc
        simp [hno, eq_comm]
      · simp [hk]

/-- The double mapping after a sequence of calls with distinct names, from any starting
container: the pairs passed to `addDouble`, and the starting entries no `addDouble` call names. -/
theorem lookup_applyCalls_double (calls : List AddCall) :
    ∀ (e : DynamicEvent), (calls.map AddCall.name).Nodup → ∀ (k : String) (v : Double),
      ((applyCalls calls e).getDoubleMap.lookup k = some v ↔
        AddCall.addDouble k v ∈ calls ∨
          ((∀ w, AddCall.addDouble k w ∉ calls) ∧ e.getDoubleMap.lookup k = some v)) := by
  induction calls with
  | nil => intro e _ k v; simp [applyCalls]
  | cons c cs ih =>
    intro e hnd k v
    rw [List.map_cons, List.nodup_cons] at hnd
    obtain ⟨hc, hcs⟩ := hnd
    rw [applyCalls_cons, ih (c.apply e) hcs k v]
    cases c with
    | addInt n x => simp [AddCall.apply]
    | addString n x => simp [AddCall.apply]
    | addDouble n x =>
      simp only [AddCall.apply, DynamicEvent.getDoubleMap_addDouble, lookup_insert_ite,
        List.mem_cons, not_or, AddCall.addDouble.injEq]
      by_cases hk : k = n
      · subst hk
        have hno : ∀ w, AddCall.addDouble k w ∉ cs := fun w => not_mem_of_name_not_mem hc
        simp [hno, eq_comm]
      · simp [hk]

/-! ## The names `populate` writes, by mapping -/

/-- Every name `populate` leaves in the integer mapping of an empty container. -/
theorem populate_int_keys (ev : Event) :
    (ev.populate DynamicEvent.empty).getIntMap.keys ⊆
      {"is_takeover", "success", "fetched_trees", "fetched_blobs", "clean", "fuse_op",
        "error_code", "size_before", "size_after"} := by
  intro x
  cases ev <;>
    simp [Event.populate, ParentMismatch.populate,
      DaemonStart.populate, DaemonStop.populate,
      FinishedCheckout.populate, FinishedMount.populate, FuseError.populate,
      RocksDbAutomaticGc.populate, ThriftError.populate, ThriftAuthFailure.populate,
      keys_insert_eq] <;> tauto

/-- Every name `populate` leaves in the string mapping of an empty container. -/
theorem populate_string_keys (ev : Event) :
    (ev.populate DynamicEvent.empty).getStringMap.keys ⊆
      {"mercurial_parent", "eden_parent", "mode", "repo_type", "repo_source",
        "thrift_method", "reason"} := by
  intro x
  cases ev <;>
    simp [Event.populate, ParentMismatch.populate,
      DaemonStart.populate, DaemonStop.populate,
      FinishedCheckout.populate, FinishedMount.populate, FuseError.populate,
      RocksDbAutomaticGc.populate, ThriftError.populate, ThriftAuthFailure.populate,
      keys_insert_eq] <;> tauto

/-- The only name `populate` leaves in the double mapping of an empty container. -/
theorem populate_double_keys (ev : Event) :
    (ev.populate DynamicEvent.empty).getDoubleMap.keys ⊆ {"duration"} := by
  intro x
  cases ev <;>
    simp [Event.populate, ParentMismatch.populate,
      DaemonStart.populate, DaemonStop.populate,
      FinishedCheckout.populate, FinishedMount.populate, FuseError.populate,
      RocksDbAutomaticGc.populate, ThriftError.populate, ThriftAuthFailure.populate,
      keys_insert_eq]

/-! ## Reading a populated container back -/

/-- C1. For each of the nine event record structs and every record of it, `populate` on an
empty `DynamicEvent` followed by a lookup of each field, under the name `populate` stores it
by and in the mapping of its kind, returns the value the record holds: string members in the
string mapping, `double` members in the double mapping, `int64_t` members in the integer
mapping, `bool` members in the integer mapping as `1` for `true` and `0` for `false`.
(The two `int64_t` members of `FinishedCheckout` are stored under `fetched_trees` and
`fetched_blobs`.) -/
theorem populate_read_back :
    (∀ r : ParentMismatch,
      (r.populate DynamicEvent.empty).getStringMap.lookup "mercurial_parent" = some r.mercurial_parent ∧
      (r.populate DynamicEvent.empty).getStringMap.lookup "eden_parent" = some r.eden_parent) ∧
    (∀ r : DaemonStart,
      (r.populate DynamicEvent.empty).getDoubleMap.lookup "duration" = some r.duration ∧
      (r.populate DynamicEvent.empty).getIntMap.lookup "is_takeover" = some (if r.is_takeover then 1 else 0) ∧
      (r.populate DynamicEvent.empty).getIntMap.lookup "success" = some (if r.success then 1 else 0)) ∧
    (∀ r : DaemonStop,
      (r.populate DynamicEvent.empty).getDoubleMap.lookup "duration" = some r.duration ∧
      (r.populate DynamicEvent.empty).getIntMap.lookup "is_takeover" = some (if r.is_takeover then 1 else 0) ∧
      (r.populate DynamicEvent.empty).getIntMap.lookup "success" = some (if r.success then 1 else 0)) ∧
    (∀ r : FinishedCheckout,
      (r.populate DynamicEvent.empty).getStringMap.lookup "mode" = some r.mode ∧
      (r.populate DynamicEvent.empty).getDoubleMap.lookup "duration" = some r.duration ∧
      (r.populate DynamicEvent.empty).getIntMap.lookup "success" = some (if r.success then 1 else 0) ∧
      (r.populate DynamicEvent.empty).getIntMap.lookup "fetched_trees" = some r.fetchedTrees ∧
      (r.populate DynamicEvent.empty).getIntMap.lookup "fetched_blobs" = some r.fetchedBlobs) ∧
    (∀ r : FinishedMount,
      (r.populate DynamicEvent.empty).getStringMap.lookup "repo_type" = some r.repo_type ∧
      (r.populate DynamicEvent.empty).getStringMap.lookup "repo_source" = some r.repo_source ∧
      (r.populate DynamicEvent.empty).getIntMap.lookup "is_takeover" = some (if r.is_takeover then 1 else 0) ∧
      (r.populate DynamicEvent.empty).getDoubleMap.lookup "duration" = some r.duration ∧
      (r.populate DynamicEvent.empty).getIntMap.lookup "success" = some (if r.success then 1 else 0) ∧
      (r.populate DynamicEvent.empty).getIntMap.lookup "clean" = some (if r.clean then 1 else 0)) ∧
    (∀ r : FuseError,
      (r.populate DynamicEvent.empty).getIntMap.lookup "fuse_op" = some r.fuse_op ∧
      (r.populate DynamicEvent.empty).getIntMap.lookup "error_code" = some r.error_code) ∧
    (∀ r : RocksDbAutomaticGc,
      (r.populate DynamicEvent.empty).getDoubleMap.lookup "duration" = some r.duration ∧
      (r.populate DynamicEvent.empty).getIntMap.lookup "success" = some (if r.success then 1 else 0) ∧
      (r.populate DynamicEvent.empty).getIntMap.lookup "size_before" = some r.size_before ∧
      (r.populate DynamicEvent.empty).getIntMap.lookup "size_after" = some r.size_after) ∧
    (∀ r : ThriftError,
      (r.populate DynamicEvent.empty).getStringMap.lookup "thrift_method" = some r.thrift_method) ∧
    (∀ r : ThriftAuthFailure,
      (r.populate DynamicEvent.empty).getStringMap.lookup "thrift_method" = some r.thrift_method ∧
      (r.populate DynamicEvent.empty).getStringMap.lookup "reason" = some r.reason) := by
  refine ⟨?_, ?_, ?_, ?_, ?_, ?_, ?_, ?_, ?_⟩ <;> intro r <;>
    simp [ParentMismatch.populate, DaemonStart.populate, DaemonStop.populate,
      FinishedCheckout.populate, FinishedMount.populate, FuseError.populate,
      RocksDbAutomaticGc.populate, ThriftError.populate, ThriftAuthFailure.populate,
      lookup_insert_ite, DynamicEvent.boolToInt64]

/-- C2. For every `FinishedCheckout` record, `populate` on an empty `DynamicEvent` leaves the
string mapping equal to `{"mode": mode}`, the double mapping equal to `{"duration": duration}`
and the integer mapping equal to `{"success": 1 or 0, "fetched_trees": fetchedTrees,
"fetched_blobs": fetchedBlobs}`, with no other entry; in particular for the record
`{"full", 1.5, true, 10, 42}` the three mappings are `{"mode": "full"}`, `{"duration": 1.5}`
and `{"success": 1, "fetched_trees": 10, "fetched_blobs": 42}`. -/
theorem finishedCheckout_populate_maps :
    (∀ r : FinishedCheckout,
      (r.populate DynamicEvent.empty).getStringMap = Finmap.singleton "mode" r.mode ∧
      (r.populate DynamicEvent.empty).getDoubleMap = Finmap.singleton "duration" r.duration ∧
      (r.populate DynamicEvent.empty).getIntMap
        = List.toFinmap [⟨"success", if r.success then 1 else 0⟩,
            ⟨"fetched_trees", r.fetchedTrees⟩, ⟨"fetched_blobs", r.fetchedBlobs⟩]) ∧
    ((FinishedCheckout.mk "full" Double.onePointFive true 10 42).populate
          DynamicEvent.empty).getStringMap = Finmap.singleton "mode" "full" ∧
    ((FinishedCheckout.mk "full" Double.onePointFive true 10 42).populate
          DynamicEvent.empty).getDoubleMap = Finmap.singleton "duration" Double.onePointFive ∧
    ((FinishedCheckout.mk "full" Double.onePointFive true 10 42).populate
          DynamicEvent.empty).getIntMap
        = List.toFinmap [⟨"success", 1⟩, ⟨"fetched_trees", 10⟩, ⟨"fetched_blobs", 42⟩] := by
  have key : ∀ r : FinishedCheckout,
      (r.populate DynamicEvent.empty).getStringMap = Finmap.singleton "mode" r.mode ∧
      (r.populate DynamicEvent.empty).getDoubleMap = Finmap.singleton "duration" r.duration ∧
      (r.populate DynamicEvent.empty).getIntMap
        = List.toFinmap [⟨"success", if r.success then 1 else 0⟩,
            ⟨"fetched_trees", r.fetchedTrees⟩, ⟨"fetched_blobs", r.fetchedBlobs⟩] := by
    intro r
    refine ⟨?_, ?_, ?_⟩
    · simp [FinishedCheckout.populate, singleton_eq_insert]
    · simp [FinishedCheckout.populate, singleton_eq_insert]
    · apply Finmap.ext_lookup; intro k
      simp only [FinishedCheckout.populate, DynamicEvent.getIntMap_addInt,
        DynamicEvent.getIntMap_addBool, DynamicEvent.getIntMap_addDouble,
        DynamicEvent.getIntMap_addString, DynamicEvent.getIntMap_empty,
        Finmap.toFinmap_cons, Finmap.toFinmap_nil, lookup_insert_ite, DynamicEvent.boolToInt64]
      split_ifs <;> simp_all
  refine ⟨key, ?_, ?_, ?_⟩
  · exact (key _).1
  · exact (key _).2.1
  · exact (key ⟨"full", Double.onePointFive, true, 10, 42⟩).2.2

/-- C3. For every `ThriftAuthFailure` record, `populate` on an empty `DynamicEvent` leaves the
string mapping equal to `{"thrift_method": thrift_method, "reason": reason}` and the integer
and double mappings empty; in particular for `{"getFileContent", "expired_token"}`. -/
theorem thriftAuthFailure_populate_maps :
    (∀ r : ThriftAuthFailure,
      (r.populate DynamicEvent.empty).getStringMap
        = List.toFinmap [⟨"thrift_method", r.thrift_method⟩, ⟨"reason", r.reason⟩] ∧
      (r.populate DynamicEvent.empty).getIntMap = ∅ ∧
      (r.populate DynamicEvent.empty).getDoubleMap = ∅) ∧
    ((ThriftAuthFailure.mk "getFileContent" "expired_token").populate
          DynamicEvent.empty).getStringMap
        = List.toFinmap [⟨"thrift_method", "getFileContent"⟩, ⟨"reason", "expired_token"⟩] ∧
    ((ThriftAuthFailure.mk "getFileContent" "expired_token").populate
          DynamicEvent.empty).getIntMap = ∅ ∧
    ((ThriftAuthFailure.mk "getFileContent" "expired_token").populate
          DynamicEvent.empty).getDoubleMap = ∅ := by
  have key : ∀ r : ThriftAuthFailure,
      (r.populate DynamicEvent.empty).getStringMap
        = List.toFinmap [⟨"thrift_method", r.thrift_method⟩, ⟨"reason", r.reason⟩] ∧
      (r.populate DynamicEvent.empty).getIntMap = ∅ ∧
      (r.populate DynamicEvent.empty).getDoubleMap = ∅ := by
    intro r
    refine ⟨?_, ?_, ?_⟩
    · apply Finmap.ext_lookup; intro k
      simp only [ThriftAuthFailure.populate, DynamicEvent.getStringMap_addString,
        DynamicEvent.getStringMap_empty,
        Finmap.toFinmap_cons, Finmap.toFinmap_nil, lookup_insert_ite]
      split_ifs <;> simp_all
    · simp [ThriftAuthFailure.populate]
    · simp [ThriftAuthFailure.populate]
  exact ⟨key, (key _).1, (key _).2.1, (key _).2.2⟩

/-! ## Field names -/

/-- C4, as stated, fails. For the `FinishedCheckout` record `{"full", 1.5, true, 10, 42}` the
names present across the three mappings after `populate` on an empty container are not the
field names of the table of section 3: `fetched_trees` is present and `fetchedTrees` is
not. -/
theorem populate_names_ne_spec_table :
    ((Event.finishedCheckout ⟨"full", Double.onePointFive, true, 10, 42⟩).populate
        DynamicEvent.empty).names
      ≠ (Event.finishedCheckout ⟨"full", Double.onePointFive, true, 10, 42⟩).specFieldNames ∧
    "fetched_trees" ∈ ((Event.finishedCheckout ⟨"full", Double.onePointFive, true, 10, 42⟩).populate
        DynamicEvent.empty).names ∧
    "fetchedTrees" ∉ ((Event.finishedCheckout ⟨"full", Double.onePointFive, true, 10, 42⟩).populate
        DynamicEvent.empty).names := by
  decide

/-- C4, amended. For every variant and every record, after `populate` on an empty
`DynamicEvent` the set of names present across the three mappings is the set of field names
the table of section 3 lists for the variant, except for `FinishedCheckout`, whose names are
`mode`, `duration`, `success`, `fetched_trees`, `fetched_blobs`. -/
theorem populate_names :
    ∀ ev : Event, (ev.populate DynamicEvent.empty).names =
      match ev with
      | .finishedCheckout _ => {"mode", "duration", "success", "fetched_trees", "fetched_blobs"}
      | other => other.specFieldNames := by
  intro ev
  cases ev <;>
    (ext x
     simp [Event.populate, Event.specFieldNames, DynamicEvent.names, ParentMismatch.populate,
      DaemonStart.populate, DaemonStop.populate,
      FinishedCheckout.populate, FinishedMount.populate, FuseError.populate,
      RocksDbAutomaticGc.populate, ThriftError.populate, ThriftAuthFailure.populate,
      keys_insert_eq]
     try tauto)

/-! ## The container operations -/

/-- C5. For every container and name, `addBool(name, true)` leaves the integer mapping with
`1` at `name` and `addBool(name, false)` with `0`; `addBool(name, b)` is the same container
as `addInt(name, b ? 1 : 0)`; and the string and double mappings are unchanged. -/
theorem addBool_spec (e : DynamicEvent) (name : String) :
    (e.addBool name true).getIntMap.lookup name = some 1 ∧
    (e.addBool name false).getIntMap.lookup name = some 0 ∧
    (∀ b : Bool, e.addBool name b = e.addInt name (if b then 1 else 0)) ∧
    (∀ b : Bool, (e.addBool name b).getStringMap = e.getStringMap ∧
      (e.addBool name b).getDoubleMap = e.getDoubleMap) := by
  refine ⟨?_, ?_, ?_, ?_⟩
  · simp [DynamicEvent.boolToInt64]
  · simp [DynamicEvent.boolToInt64]
  · intro b; rfl
  · intro b; exact ⟨rfl, rfl⟩

/-- C6. For every container, name and values `v1`, `v2`: after `addInt(name, v1)` and then
`addInt(name, v2)` the integer mapping reads `v2` at `name`, has exactly one entry whose key
is `name`, and the container is the one a single `addInt(name, v2)` gives (last write wins);
the same for `addString` and `addDouble` on their mappings; and `addInt("x", 1)` then
`addInt("x", 2)` on an empty container leaves the integer mapping equal to `{"x": 2}`. -/
theorem add_overwrites (e : DynamicEvent) (name : String) :
    (∀ v1 v2 : Int,
      ((e.addInt name v1).addInt name v2).getIntMap.lookup name = some v2 ∧
      Multiset.count name ((e.addInt name v1).addInt name v2).getIntMap.entries.keys = 1 ∧
      (e.addInt name v1).addInt name v2 = e.addInt name v2) ∧
    (∀ v1 v2 : String,
      ((e.addString name v1).addString name v2).getStringMap.lookup name = some v2 ∧
      Multiset.count name
        ((e.addString name v1).addString name v2).getStringMap.entries.keys = 1 ∧
      (e.addString name v1).addString name v2 = e.addString name v2) ∧
    (∀ v1 v2 : Double,
      ((e.addDouble name v1).addDouble name v2).getDoubleMap.lookup name = some v2 ∧
      Multiset.count name
        ((e.addDouble name v1).addDouble name v2).getDoubleMap.entries.keys = 1 ∧
      (e.addDouble name v1).addDouble name v2 = e.addDouble name v2) ∧
    ((DynamicEvent.empty.addInt "x" 1).addInt "x" 2).getIntMap = Finmap.singleton "x" 2 := by
  refine ⟨?_, ?_, ?_, ?_⟩
  · intro v1 v2
    refine ⟨by simp, count_key_eq_one _ _ (by simp), ?_⟩
    apply DynamicEvent.ext_maps <;> simp [Finmap.insert_insert]
  · intro v1 v2
    refine ⟨by simp, count_key_eq_one _ _ (by simp), ?_⟩
    apply DynamicEvent.ext_maps <;> simp [Finmap.insert_insert]
  · intro v1 v2
    refine ⟨by simp, count_key_eq_one _ _ (by simp), ?_⟩
    apply DynamicEvent.ext_maps <;> simp [Finmap.insert_insert]
  · simp [Finmap.insert_insert, singleton_eq_insert]

/-- C7. For every finite sequence of `addString` / `addDouble` / `addInt` calls with pairwise
distinct names, performed on an empty container, the integer mapping holds exactly the
(name, value) pairs passed to `addInt`, the string mapping exactly those passed to
`addString` and the double mapping exactly those passed to `addDouble`; and each add
operation leaves the two mappings that are not its own unchanged. -/
theorem mapping_isolation (calls : List AddCall) (h : (calls.map AddCall.name).Nodup) :
    (∀ (k : String) (v : Int),
      (applyCalls calls DynamicEvent.empty).getIntMap.lookup k = some v ↔
        AddCall.addInt k v ∈ calls) ∧
    (∀ (k : String) (v : String),
      (applyCalls calls DynamicEvent.empty).getStringMap.lookup k = some v ↔
        AddCall.addString k v ∈ calls) ∧
    (∀ (k : String) (v : Double),
      (applyCalls calls DynamicEvent.empty).getDoubleMap.lookup k = some v ↔
        AddCall.addDouble k v ∈ calls) ∧
    (∀ (e : DynamicEvent) (name : String) (v : Int),
      (e.addInt name v).getStringMap = e.getStringMap ∧
      (e.addInt name v).getDoubleMap = e.getDoubleMap) ∧
    (∀ (e : DynamicEvent) (name : String) (v : String),
      (e.addString name v).getIntMap = e.getIntMap ∧
      (e.addString name v).getDoubleMap = e.getDoubleMap) ∧
    (∀ (e : DynamicEvent) (name : String) (v : Double),
      (e.addDouble name v).getIntMap = e.getIntMap ∧
      (e.addDouble name v).getStringMap = e.getStringMap) := by
  refine ⟨?_, ?_, ?_, fun _ _ _ => ⟨rfl, rfl⟩, fun _ _ _ => ⟨rfl, rfl⟩,
    fun _ _ _ => ⟨rfl, rfl⟩⟩
  · intro k v
    rw [lookup_applyCalls_int calls DynamicEvent.empty h k v]; simp
  · intro k v
    rw [lookup_applyCalls_string calls DynamicEvent.empty h k v]; simp
  · intro k v
    rw [lookup_applyCalls_double calls DynamicEvent.empty h k v]; simp

/-- C7 at the calls `addString("mode", "full")`, `addDouble("duration", 1.5)`,
`addInt("fetched_trees", 10)`: the names are distinct, and the integer mapping holds `10`
at `fetched_trees`. -/
theorem mapping_isolation_witness :
    ([AddCall.addString "mode" "full", AddCall.addDouble "duration" Double.onePointFive,
        AddCall.addInt "fetched_trees" 10].map AddCall.name).Nodup ∧
    (applyCalls [AddCall.addString "mode" "full",
        AddCall.addDouble "duration" Double.onePointFive,
        AddCall.addInt "fetched_trees" 10] DynamicEvent.empty).getIntMap.lookup
          "fetched_trees" = some 10 :=
  ⟨by decide, ((mapping_isolation _ (by decide)).1 "fetched_trees" 10).2 (by decide)⟩

/-! ## Type tags and field kinds -/

/-- C8. The type tags of the nine event record structs are `parent_mismatch`, `daemon_start`,
`daemon_stop`, `checkout`, `mount`, `fuse_error`, `rocksdb_autogc`, `thrift_error`,
`thrift_auth_failure`; they are pairwise distinct; and `FinishedCheckout`, `FinishedMount`
and `DaemonStart` carry `checkout`, `mount` and `daemon_start`. -/
theorem type_tags_distinct :
    allTypes = ["parent_mismatch", "daemon_start", "daemon_stop", "checkout", "mount",
      "fuse_error", "rocksdb_autogc", "thrift_error", "thrift_auth_failure"] ∧
    allTypes.Nodup ∧
    FinishedCheckout.type = "checkout" ∧ FinishedMount.type = "mount" ∧
    DaemonStart.type = "daemon_start" := by
  refine ⟨by decide, by decide, rfl, rfl, rfl⟩

/-- C9. For each struct with a `duration` member (`DaemonStart`, `DaemonStop`,
`FinishedCheckout`, `FinishedMount`, `RocksDbAutomaticGc`), after `populate` on an empty
container the name `duration` is in the double mapping with the record's duration and is in
neither the integer nor the string mapping; and across all nine structs no name is written
to two different mappings: for any two records, of the same struct or not, the names the one
leaves in one mapping are disjoint from the names the other leaves in another mapping. -/
theorem field_kind_fixed :
    (∀ r : DaemonStart,
      (r.populate DynamicEvent.empty).getDoubleMap.lookup "duration" = some r.duration ∧
      "duration" ∉ (r.populate DynamicEvent.empty).getIntMap ∧
      "duration" ∉ (r.populate DynamicEvent.empty).getStringMap) ∧
    (∀ r : DaemonStop,
      (r.populate DynamicEvent.empty).getDoubleMap.lookup "duration" = some r.duration ∧
      "duration" ∉ (r.populate DynamicEvent.empty).getIntMap ∧
      "duration" ∉ (r.populate DynamicEvent.empty).getStringMap) ∧
    (∀ r : FinishedCheckout,
      (r.populate DynamicEvent.empty).getDoubleMap.lookup "duration" = some r.duration ∧
      "duration" ∉ (r.populate DynamicEvent.empty).getIntMap ∧
      "duration" ∉ (r.populate DynamicEvent.empty).getStringMap) ∧
    (∀ r : FinishedMount,
      (r.populate DynamicEvent.empty).getDoubleMap.lookup "duration" = some r.duration ∧
      "duration" ∉ (r.populate DynamicEvent.empty).getIntMap ∧
      "duration" ∉ (r.populate DynamicEvent.empty).getStringMap) ∧
    (∀ r : RocksDbAutomaticGc,
      (r.populate DynamicEvent.empty).getDoubleMap.lookup "duration" = some r.duration ∧
      "duration" ∉ (r.populate DynamicEvent.empty).getIntMap ∧
      "duration" ∉ (r.populate DynamicEvent.empty).getStringMap) ∧
    (∀ ev1 ev2 : Event,
      Disjoint (ev1.populate DynamicEvent.empty).getIntMap.keys
        (ev2.populate DynamicEvent.empty).getStringMap.keys ∧
      Disjoint (ev1.populate DynamicEvent.empty).getIntMap.keys
        (ev2.populate DynamicEvent.empty).getDoubleMap.keys ∧
      Disjoint (ev1.populate DynamicEvent.empty).getStringMap.keys
        (ev2.populate DynamicEvent.empty).getDoubleMap.keys) := by
  refine ⟨?_, ?_, ?_, ?_, ?_, ?_⟩
  · intro r
    simp [DaemonStart.populate, lookup_insert_ite, Finmap.not_mem_empty]
  · intro r
    simp [DaemonStop.populate, lookup_insert_ite, Finmap.not_mem_empty]
  · intro r
    simp [FinishedCheckout.populate, lookup_insert_ite, Finmap.not_mem_empty]
  · intro r
    simp [FinishedMount.populate, lookup_insert_ite, Finmap.not_mem_empty]
  · intro r
    simp [RocksDbAutomaticGc.populate, lookup_insert_ite, Finmap.not_mem_empty]
  · intro ev1 ev2
    refine ⟨?_, ?_, ?_⟩
    · exact Finset.disjoint_of_subset_left (populate_int_keys ev1)
        (Finset.disjoint_of_subset_right (populate_string_keys ev2) (by decide))
    · exact Finset.disjoint_of_subset_left (populate_int_keys ev1)
        (Finset.disjoint_of_subset_right (populate_double_keys ev2) (by decide))
    · exact Finset.disjoint_of_subset_left (populate_string_keys ev1)
        (Finset.disjoint_of_subset_right (populate_double_keys ev2) (by decide))

/-! ## Idempotence -/

/-- C10. For every variant, every record and every starting container, empty or not, calling
`populate` twice in a row gives the same three mappings as calling it once; and populating
two separately built empty containers with the same record gives identical content. -/
theorem populate_idempotent :
    (∀ (ev : Event) (c : DynamicEvent), ev.populate (ev.populate c) = ev.populate c) ∧
    (∀ ev : Event, ev.populate DynamicEvent.empty = ev.populate (DynamicEvent.mk ∅ ∅ ∅)) := by
  constructor
  · intro ev c
    cases ev <;>
      (apply DynamicEvent.ext_maps <;> apply Finmap.ext_lookup <;> intro k <;>
        simp only [Event.populate, ParentMismatch.populate,
          DaemonStart.populate, DaemonStop.populate,
          FinishedCheckout.populate, FinishedMount.populate, FuseError.populate,
          RocksDbAutomaticGc.populate, ThriftError.populate, ThriftAuthFailure.populate,
          DynamicEvent.getIntMap_addInt, DynamicEvent.getIntMap_addBool,
          DynamicEvent.getIntMap_addString, DynamicEvent.getIntMap_addDouble,
          DynamicEvent.getStringMap_addInt, DynamicEvent.getStringMap_addBool,
          DynamicEvent.getStringMap_addString, DynamicEvent.getStringMap_addDouble,
          DynamicEvent.getDoubleMap_addInt, DynamicEvent.getDoubleMap_addBool,
          DynamicEvent.getDoubleMap_addString, DynamicEvent.getDoubleMap_addDouble,
          lookup_insert_ite] <;>
        (try split_ifs) <;> (try rfl))
  · intro ev
    rfl


/-! ## Auxiliary facts about `populate` -/

/-- The calls listed for a record are what its `populate` performs. -/
theorem applyCalls_calls (ev : Event) (c : DynamicEvent) :
    applyCalls ev.calls c = ev.populate c := by
  cases ev <;> rfl

/-- What `populate` leaves in a container: what it leaves in an empty one, laid over the
starting content. -/
theorem populate_eq_union (ev : Event) (c : DynamicEvent) :
    (ev.populate c).getIntMap = (ev.populate DynamicEvent.empty).getIntMap ∪ c.getIntMap ∧
    (ev.populate c).getStringMap
      = (ev.populate DynamicEvent.empty).getStringMap ∪ c.getStringMap ∧
    (ev.populate c).getDoubleMap
      = (ev.populate DynamicEvent.empty).getDoubleMap ∪ c.getDoubleMap := by
  cases ev <;>
    simp [Event.populate, ParentMismatch.populate,
      DaemonStart.populate, DaemonStop.populate,
      FinishedCheckout.populate, FinishedMount.populate, FuseError.populate,
      RocksDbAutomaticGc.populate, ThriftError.populate, ThriftAuthFailure.populate,
      ← Finmap.insert_union, Finmap.empty_union]

/-- Growth is a matter of the three key sets. -/
theorem growsTo_of_subset {a b : DynamicEvent} (hi : a.getIntMap.keys ⊆ b.getIntMap.keys)
    (hs : a.getStringMap.keys ⊆ b.getStringMap.keys)
    (hd : a.getDoubleMap.keys ⊆ b.getDoubleMap.keys) : a.GrowsTo b :=
  ⟨⟨hi, hs, hd⟩, Finset.card_le_card hi, Finset.card_le_card hs, Finset.card_le_card hd⟩

/-! ## Totality and growth -/

/-- C11. Every operation is defined on every input and has its whole effect there: for
every container (one that already holds the name included), every name (the empty string
included) and every value, `addInt`, `addString`, `addDouble` and `addBool` return a
container that holds the value at the name; in particular `addInt("", 1)` then
`addInt("", 2)` leaves `2` at the empty name; and for every record and every starting
container `populate` returns the container whose three mappings are what the record leaves
in an empty container laid over the starting content, so no field is left unwritten. -/
theorem operations_total :
    (∀ (e : DynamicEvent) (name : String) (v : Int),
      (e.addInt name v).getIntMap.lookup name = some v) ∧
    (∀ (e : DynamicEvent) (name : String) (v : String),
      (e.addString name v).getStringMap.lookup name = some v) ∧
    (∀ (e : DynamicEvent) (name : String) (v : Double),
      (e.addDouble name v).getDoubleMap.lookup name = some v) ∧
    (∀ (e : DynamicEvent) (name : String) (b : Bool),
      (e.addBool name b).getIntMap.lookup name = some (if b then 1 else 0)) ∧
    ((DynamicEvent.empty.addInt "" 1).addInt "" 2).getIntMap.lookup "" = some 2 ∧
    (∀ (ev : Event) (c : DynamicEvent),
      (ev.populate c).getIntMap = (ev.populate DynamicEvent.empty).getIntMap ∪ c.getIntMap ∧
      (ev.populate c).getStringMap
        = (ev.populate DynamicEvent.empty).getStringMap ∪ c.getStringMap ∧
      (ev.populate c).getDoubleMap
        = (ev.populate DynamicEvent.empty).getDoubleMap ∪ c.getDoubleMap) := by
  refine ⟨?_, ?_, ?_, ?_, ?_, populate_eq_union⟩
  · intro e name v; simp
  · intro e name v; simp
  · intro e name v; simp
  · intro e name b; cases b <;> simp [DynamicEvent.boolToInt64]
  · simp

/-- C12. A container only grows: for every container and each of `addInt`, `addString`,
`addDouble`, `addBool`, and for `populate` of every record, every name present in the
integer, string or double mapping before the operation is present in the same mapping after
it, and the number of entries of each mapping does not decrease. -/
theorem container_only_grows :
    (∀ (e : DynamicEvent) (name : String) (v : Int), e.GrowsTo (e.addInt name v)) ∧
    (∀ (e : DynamicEvent) (name : String) (v : String), e.GrowsTo (e.addString name v)) ∧
    (∀ (e : DynamicEvent) (name : String) (v : Double), e.GrowsTo (e.addDouble name v)) ∧
    (∀ (e : DynamicEvent) (name : String) (b : Bool), e.GrowsTo (e.addBool name b)) ∧
    (∀ (ev : Event) (c : DynamicEvent), c.GrowsTo (ev.populate c)) := by
  refine ⟨?_, ?_, ?_, ?_, ?_⟩
  · intro e name v
    apply growsTo_of_subset <;> simp [keys_insert_eq]
  · intro e name v
    apply growsTo_of_subset <;> simp [keys_insert_eq]
  · intro e name v
    apply growsTo_of_subset <;> simp [keys_insert_eq]
  · intro e name v
    apply growsTo_of_subset <;> simp [keys_insert_eq]
  · intro ev c
    obtain ⟨hi, hs, hd⟩ := populate_eq_union ev c
    apply growsTo_of_subset
    · rw [hi, Finmap.keys_union]; exact Finset.subset_union_right
    · rw [hs, Finmap.keys_union]; exact Finset.subset_union_right
    · rw [hd, Finmap.keys_union]; exact Finset.subset_union_right

/-! ## `DaemonStart` and `DaemonStop` -/

/-- C16. For every duration, is_takeover and success and every starting container,
`DaemonStart{duration, is_takeover, success}.populate` and
`DaemonStop{duration, is_takeover, success}.populate` give the same container, because they
make the same calls; the two structs differ in their type tags, `daemon_start` and
`daemon_stop`. -/
theorem daemonStart_daemonStop_same_projection :
    (∀ (duration : Double) (is_takeover success : Bool) (c : DynamicEvent),
      (DaemonStart.mk duration is_takeover success).populate c
        = (DaemonStop.mk duration is_takeover success).populate c) ∧
    (∀ (duration : Double) (is_takeover success : Bool),
      (Event.daemonStart ⟨duration, is_takeover, success⟩).calls
        = (Event.daemonStop ⟨duration, is_takeover, success⟩).calls) ∧
    DaemonStart.type = "daemon_start" ∧ DaemonStop.type = "daemon_stop" ∧
    DaemonStart.type ≠ DaemonStop.type := by
  refine ⟨fun _ _ _ _ => rfl, fun _ _ _ => rfl, rfl, rfl, by decide⟩

/-! ## Order of the add calls -/

/-- Two calls with different names commute. -/
theorem apply_comm_of_name_ne (z : DynamicEvent) (x y : AddCall) (h : x.name ≠ y.name) :
    AddCall.apply (AddCall.apply z x) y = AddCall.apply (AddCall.apply z y) x := by
  cases x <;> cases y <;> simp only [AddCall.name] at h <;>
    first
      | rfl
      | (apply DynamicEvent.ext_maps <;>
          simp [AddCall.apply, Finmap.insert_insert_of_ne _ h])

/-- The names of the calls one `populate` makes are pairwise distinct. -/
theorem calls_names_nodup (ev : Event) : (ev.calls.map AddCall.name).Nodup := by
  cases ev <;> simp [Event.calls, AddCall.name]

/-- C13. Two add operations on different mappings commute, whatever their names; two add
operations on the same mapping with different names commute; and for every record, the add
calls of its `populate` performed in any permuted order, on any starting container, give
the container `populate` gives. -/
theorem add_calls_commute :
    (∀ (e : DynamicEvent) (n1 n2 : String) (v1 : Int) (v2 : String),
      (e.addInt n1 v1).addString n2 v2 = (e.addString n2 v2).addInt n1 v1) ∧
    (∀ (e : DynamicEvent) (n1 n2 : String) (v1 : Int) (v2 : Double),
      (e.addInt n1 v1).addDouble n2 v2 = (e.addDouble n2 v2).addInt n1 v1) ∧
    (∀ (e : DynamicEvent) (n1 n2 : String) (v1 : String) (v2 : Double),
      (e.addString n1 v1).addDouble n2 v2 = (e.addDouble n2 v2).addString n1 v1) ∧
    (∀ (e : DynamicEvent) (n1 n2 : String) (v1 v2 : Int), n1 ≠ n2 →
      (e.addInt n1 v1).addInt n2 v2 = (e.addInt n2 v2).addInt n1 v1) ∧
    (∀ (e : DynamicEvent) (n1 n2 : String) (v1 v2 : String), n1 ≠ n2 →
      (e.addString n1 v1).addString n2 v2 = (e.addString n2 v2).addString n1 v1) ∧
    (∀ (e : DynamicEvent) (n1 n2 : String) (v1 v2 : Double), n1 ≠ n2 →
      (e.addDouble n1 v1).addDouble n2 v2 = (e.addDouble n2 v2).addDouble n1 v1) ∧
    (∀ (ev : Event) (calls : List AddCall) (c : DynamicEvent), calls.Perm ev.calls →
      applyCalls calls c = ev.populate c) := by
  refine ⟨fun _ _ _ _ _ => rfl, fun _ _ _ _ _ => rfl, fun _ _ _ _ _ => rfl, ?_, ?_, ?_, ?_⟩
  · intro e n1 n2 v1 v2 h
    exact apply_comm_of_name_ne e (.addInt n1 v1) (.addInt n2 v2) h
  · intro e n1 n2 v1 v2 h
    exact apply_comm_of_name_ne e (.addString n1 v1) (.addString n2 v2) h
  · intro e n1 n2 v1 v2 h
    exact apply_comm_of_name_ne e (.addDouble n1 v1) (.addDouble n2 v2) h
  · intro ev calls c hperm
    rw [← applyCalls_calls ev c]
    refine (List.Perm.foldl_eq' hperm.symm ?_ c).symm
    intro x hx y hy z
    by_cases hxy : x = y
    · rw [hxy]
    · exact apply_comm_of_name_ne z x y
        (fun hn => hxy (List.inj_on_of_nodup_map (calls_names_nodup ev) hx hy hn))

/-- C13 at `FuseError{7, 13}`: the names `fuse_op` and `error_code` differ, the two `addInt`
calls commute on an empty container, and the two calls in swapped order give what
`populate` gives. -/
theorem add_calls_commute_witness :
    "fuse_op" ≠ "error_code" ∧
    (DynamicEvent.empty.addInt "fuse_op" 7).addInt "error_code" 13
      = (DynamicEvent.empty.addInt "error_code" 13).addInt "fuse_op" 7 ∧
    [AddCall.addInt "error_code" 13, AddCall.addInt "fuse_op" 7].Perm
      (Event.fuseError ⟨7, 13⟩).calls ∧
    applyCalls [AddCall.addInt "error_code" 13, AddCall.addInt "fuse_op" 7] DynamicEvent.empty
      = (Event.fuseError ⟨7, 13⟩).populate DynamicEvent.empty :=
  ⟨by decide,
    add_calls_commute.2.2.2.1 DynamicEvent.empty "fuse_op" "error_code" 7 13 (by decide),
    List.Perm.swap _ _ _,
    add_calls_commute.2.2.2.2.2.2 (Event.fuseError ⟨7, 13⟩) _ DynamicEvent.empty
      (List.Perm.swap _ _ _)⟩

/-! ## Frame of `populate` -/

/-- C14. For every struct, every record and every starting container, `populate` leaves the
lookup of every name unchanged in a mapping unless the name is one the struct writes to
that mapping, and leaves a mapping the struct has no field for equal to what it was:
`FuseError` the string and double mappings; `ParentMismatch`, `ThriftError` and
`ThriftAuthFailure` the integer and double mappings; `DaemonStart`, `DaemonStop` and
`RocksDbAutomaticGc` the string mapping. -/
theorem populate_frame :
    (∀ (r : ParentMismatch) (c : DynamicEvent),
      (∀ k : String, k ≠ "mercurial_parent" → k ≠ "eden_parent" →
        (r.populate c).getStringMap.lookup k = c.getStringMap.lookup k) ∧
      (r.populate c).getDoubleMap = c.getDoubleMap ∧
      (r.populate c).getIntMap = c.getIntMap) ∧
    (∀ (r : DaemonStart) (c : DynamicEvent),
      (r.populate c).getStringMap = c.getStringMap ∧
      (∀ k : String, k ≠ "duration" →
        (r.populate c).getDoubleMap.lookup k = c.getDoubleMap.lookup k) ∧
      (∀ k : String, k ≠ "is_takeover" → k ≠ "success" →
        (r.populate c).getIntMap.lookup k = c.getIntMap.lookup k)) ∧
    (∀ (r : DaemonStop) (c : DynamicEvent),
      (r.populate c).getStringMap = c.getStringMap ∧
      (∀ k : String, k ≠ "duration" →
        (r.populate c).getDoubleMap.lookup k = c.getDoubleMap.lookup k) ∧
      (∀ k : String, k ≠ "is_takeover" → k ≠ "success" →
        (r.populate c).getIntMap.lookup k = c.getIntMap.lookup k)) ∧
    (∀ (r : FinishedCheckout) (c : DynamicEvent),
      (∀ k : String, k ≠ "mode" →
        (r.populate c).getStringMap.lookup k = c.getStringMap.lookup k) ∧
      (∀ k : String, k ≠ "duration" →
        (r.populate c).getDoubleMap.lookup k = c.getDoubleMap.lookup k) ∧
      (∀ k : String, k ≠ "success" → k ≠ "fetched_trees" → k ≠ "fetched_blobs" →
        (r.populate c).getIntMap.lookup k = c.getIntMap.lookup k)) ∧
    (∀ (r : FinishedMount) (c : DynamicEvent),
      (∀ k : String, k ≠ "repo_type" → k ≠ "repo_source" →
        (r.populate c).getStringMap.lookup k = c.getStringMap.lookup k) ∧
      (∀ k : String, k ≠ "duration" →
        (r.populate c).getDoubleMap.lookup k = c.getDoubleMap.lookup k) ∧
      (∀ k : String, k ≠ "is_takeover" → k ≠ "success" → k ≠ "clean" →
        (r.populate c).getIntMap.lookup k = c.getIntMap.lookup k)) ∧
    (∀ (r : FuseError) (c : DynamicEvent),
      (r.populate c).getStringMap = c.getStringMap ∧
      (r.populate c).getDoubleMap = c.getDoubleMap ∧
      (∀ k : String, k ≠ "fuse_op" → k ≠ "error_code" →
        (r.populate c).getIntMap.lookup k = c.getIntMap.lookup k)) ∧
    (∀ (r : RocksDbAutomaticGc) (c : DynamicEvent),
      (r.populate c).getStringMap = c.getStringMap ∧
      (∀ k : String, k ≠ "duration" →
        (r.populate c).getDoubleMap.lookup k = c.getDoubleMap.lookup k) ∧
      (∀ k : String, k ≠ "success" → k ≠ "size_before" → k ≠ "size_after" →
        (r.populate c).getIntMap.lookup k = c.getIntMap.lookup k)) ∧
    (∀ (r : ThriftError) (c : DynamicEvent),
      (∀ k : String, k ≠ "thrift_method" →
        (r.populate c).getStringMap.lookup k = c.getStringMap.lookup k) ∧
      (r.populate c).getDoubleMap = c.getDoubleMap ∧
      (r.populate c).getIntMap = c.getIntMap) ∧
    (∀ (r : ThriftAuthFailure) (c : DynamicEvent),
      (∀ k : String, k ≠ "thrift_method" → k ≠ "reason" →
        (r.populate c).getStringMap.lookup k = c.getStringMap.lookup k) ∧
      (r.populate c).getDoubleMap = c.getDoubleMap ∧
      (r.populate c).getIntMap = c.getIntMap) := by
  refine ⟨?_, ?_, ?_, ?_, ?_, ?_, ?_, ?_, ?_⟩ <;> intro r c <;>
    simp +contextual [ParentMismatch.populate, DaemonStart.populate, DaemonStop.populate,
      FinishedCheckout.populate, FinishedMount.populate, FuseError.populate,
      RocksDbAutomaticGc.populate, ThriftError.populate, ThriftAuthFailure.populate,
      lookup_insert_ite]

/-- C14 at `FuseError{7, 13}` on a container holding `mode` in its integer mapping: `mode`
is neither `fuse_op` nor `error_code`, and its entry is read back unchanged. -/
theorem populate_frame_witness :
    "mode" ≠ "fuse_op" ∧ "mode" ≠ "error_code" ∧
    ((FuseError.mk 7 13).populate (DynamicEvent.empty.addInt "mode" 5)).getIntMap.lookup "mode"
      = (DynamicEvent.empty.addInt "mode" 5).getIntMap.lookup "mode" :=
  ⟨by decide, by decide,
    (populate_frame.2.2.2.2.2.1 (FuseError.mk 7 13) (DynamicEvent.empty.addInt "mode" 5)).2.2
      "mode" (by decide) (by decide)⟩

/-! ## Distinct names and entry counts -/

/-- C15. For every record, the names its `populate` passes to `addString` are pairwise
distinct, and so are those passed to `addDouble` and those passed to `addInt` (the `addBool`
calls included), so no key of a mapping is written twice; and after `populate` on an empty
container the entry counts (string, double, integer) are: `ParentMismatch` (2,0,0),
`DaemonStart` (0,1,2), `DaemonStop` (0,1,2), `FinishedCheckout` (1,1,3), `FinishedMount`
(2,1,3), `FuseError` (0,0,2), `RocksDbAutomaticGc` (0,1,3), `ThriftError` (1,0,0),
`ThriftAuthFailure` (2,0,0). -/
theorem populate_names_distinct_and_counts :
    (∀ (ev : Event),
      (stringNames ev.calls).Nodup ∧ (doubleNames ev.calls).Nodup ∧ (intNames ev.calls).Nodup ∧
      ∀ c : DynamicEvent, applyCalls ev.calls c = ev.populate c) ∧
    (∀ r : ParentMismatch, (r.populate DynamicEvent.empty).entryCounts = (2, 0, 0)) ∧
    (∀ r : DaemonStart, (r.populate DynamicEvent.empty).entryCounts = (0, 1, 2)) ∧
    (∀ r : DaemonStop, (r.populate DynamicEvent.empty).entryCounts = (0, 1, 2)) ∧
    (∀ r : FinishedCheckout, (r.populate DynamicEvent.empty).entryCounts = (1, 1, 3)) ∧
    (∀ r : FinishedMount, (r.populate DynamicEvent.empty).entryCounts = (2, 1, 3)) ∧
    (∀ r : FuseError, (r.populate DynamicEvent.empty).entryCounts = (0, 0, 2)) ∧
    (∀ r : RocksDbAutomaticGc, (r.populate DynamicEvent.empty).entryCounts = (0, 1, 3)) ∧
    (∀ r : ThriftError, (r.populate DynamicEvent.empty).entryCounts = (1, 0, 0)) ∧
    (∀ r : ThriftAuthFailure, (r.populate DynamicEvent.empty).entryCounts = (2, 0, 0)) := by
  refine ⟨?_, ?_, ?_, ?_, ?_, ?_, ?_, ?_, ?_, ?_⟩
  · intro ev
    refine ⟨?_, ?_, ?_, applyCalls_calls ev⟩ <;> cases ev <;>
      simp [Event.calls, stringNames, doubleNames, intNames]
  all_goals
    intro r
    simp [DynamicEvent.entryCounts, ParentMismatch.populate, DaemonStart.populate, DaemonStop.populate,
      FinishedCheckout.populate, FinishedMount.populate, FuseError.populate,
      RocksDbAutomaticGc.populate, ThriftError.populate, ThriftAuthFailure.populate,
      keys_insert_eq]
end facebook.eden
